import Mathlib

/-!
Verification of the command dispatcher in `run.py`.

The program is a one-file CLI wrapper: it reads the first command-line
argument, lowercases it, and either prints usage text, prints help plus the
list of known commands, runs one external `npm` invocation in the project
directory, or reports an unknown command.

Shallow embedding conventions:
* A `print(...)` call becomes one entry in `RunResult.output` (the printed
  line, without the trailing newline).
* A `subprocess.run(command, cwd=cwd, shell=True)` call becomes one
  `SpawnCall` record in `RunResult.spawned`; its exit code is supplied by an
  oracle `child : SpawnCall → Int` standing for the environment, since the
  external process is outside the program.
* `os.path.dirname(os.path.abspath(__file__))` is the parameter
  `project_dir`, a value the dispatcher only forwards.
* Python `str.lower` is modelled by `lower` below, mapping the basic latin
  uppercase range to lowercase (every string the dispatcher compares against
  is ASCII).
* `sys.argv` is the parameter `argv` (program name first).
-/

namespace RunPy

/-- One `subprocess.run` call as issued by `run.py`: the token list, the
working directory, and the `shell=True` flag the source always passes. -/
structure SpawnCall where
  argv : List String
  cwd : Option String
  shell : Bool
deriving Repr, DecidableEq

/-- The observable behaviour of one run of the dispatcher: the printed lines,
the child processes started, and the returned exit code. -/
structure RunResult where
  output : List String
  spawned : List SpawnCall
  exit : Int
deriving Repr, DecidableEq

/-- Models Python `str.lower` (`sys.argv[1].lower()` at `run.py:36`); maps
each basic latin uppercase letter to its lowercase form, as `Char.toLower`
does. -/
def lower (s : String) : String :=
  ⟨s.data.map Char.toLower⟩

/-- The module docstring of `run.py` (`__doc__`), printed as the usage text. -/
def usage : String :=
  "\nAzure Sparkle Portfolio - Application Entry Point\n\nThis script provides a convenient entry point for running common development tasks.\nFor a Node.js project like this, it acts as a wrapper around npm commands.\n\nUsage:\n    python run.py dev        # Start development server\n    python run.py build      # Build for production\n    python run.py test       # Run tests\n    python run.py lint       # Run linter\n    python run.py format     # Format code\n    python run.py install    # Install dependencies\n    python run.py help       # Show this help message\n"

/-- The `commands` dict literal of `run.py:39-49` (the CommandTable): an
ordered association of command name to invocation tokens, as a Python dict
preserves insertion order and `run.py` never mutates it. -/
def commands : List (String × List String) :=
  [ ("dev", ["npm", "run", "dev"])
  , ("build", ["npm", "run", "build"])
  , ("test", ["npm", "run", "test"])
  , ("test:coverage", ["npm", "run", "test:coverage"])
  , ("lint", ["npm", "run", "lint"])
  , ("format", ["npm", "run", "format"])
  , ("install", ["npm", "install"])
  , ("start", ["npm", "run", "swa:start"])
  , ("preview", ["npm", "run", "preview"])
  ]

/-- `run_command` of `run.py:23-27`: print the `Running:` echo line
(tokens joined by single spaces), start the child via
`subprocess.run(command, cwd=cwd, shell=True)`, return its exit code. -/
def run_command (child : SpawnCall → Int) (command : List String)
    (cwd : Option String) : RunResult :=
  { output := ["Running: " ++ String.intercalate " " command]
  , spawned := [⟨command, cwd, true⟩]
  , exit := child ⟨command, cwd, true⟩ }

/-- `main` of `run.py:30-63`. `argv` is `sys.argv`; `project_dir` is the
directory containing the tool; `child` supplies the exit code of any spawned
process. Mirrors the source branch for branch: missing argument prints the
docstring and returns 0; a help alias prints the docstring, a header, and
every table key; a known command runs its invocation in `project_dir`; any
other token prints the unknown-command message and hint and returns 1. -/
def main (child : SpawnCall → Int) (project_dir : String)
    (argv : List String) : RunResult :=
  if argv.length < 2 then
    { output := [usage], spawned := [], exit := 0 }
  else
    let command := lower (argv.getD 1 "")
    if command = "help" ∨ command = "--help" ∨ command = "-h" then
      { output := usage :: "Available commands:" :: commands.map (fun p => "  " ++ p.1)
      , spawned := [], exit := 0 }
    else
      match commands.lookup command with
      | some inv => run_command child inv (some project_dir)
      | none =>
          { output := ["Unknown command: " ++ command,
                       "Run \x27python run.py help\x27 for available commands."]
          , spawned := [], exit := 1 }

/-- Whether `token` occurs as a contiguous substring of `line`. -/
def containsToken (token line : String) : Prop :=
  token.data.IsInfix line.data

instance (token line : String) : Decidable (containsToken token line) :=
  List.decidableInfix token.data line.data

/-! Helper lemmas shared by the claim theorems. -/

/-- On an argument vector with at least two entries, `main` reduces to the
dispatch on the lowercased second entry; the program name and any further
entries do not appear in the result. -/
theorem main_cons_cons (child : SpawnCall → Int) (pd prog arg : String)
    (rest : List String) :
    main child pd (prog :: arg :: rest) =
      (if lower arg = "help" ∨ lower arg = "--help" ∨ lower arg = "-h" then
        { output := usage :: "Available commands:" :: commands.map (fun p => "  " ++ p.1)
        , spawned := [], exit := 0 }
      else
        match commands.lookup (lower arg) with
        | some inv => run_command child inv (some pd)
        | none =>
            { output := ["Unknown command: " ++ lower arg,
                         "Run \x27python run.py help\x27 for available commands."]
            , spawned := [], exit := 1 }) := rfl

/-- A string with a successful lookup in the command table is none of the
three help aliases (the table has no such key). -/
theorem lookup_ne_help (s : String) (inv : List String)
    (h : commands.lookup s = some inv) :
    ¬(s = "help" ∨ s = "--help" ∨ s = "-h") := by
  rintro (rfl | rfl | rfl) <;> exact Option.noConfusion h

/-- `Char.toLower` is idempotent: a lowered character is outside the basic
latin uppercase range, so lowering it again is the identity. -/
theorem char_toLower_idem (c : Char) : c.toLower.toLower = c.toLower := by
  by_cases h : c.toNat ≥ 65 ∧ c.toNat ≤ 90
  · have hv : (c.toNat + 32).isValidChar := Or.inl (by omega)
    have h1 : c.toLower = Char.ofNat (c.toNat + 32) := by
      unfold Char.toLower; rw [if_pos h]
    have ht : (Char.ofNat (c.toNat + 32)).toNat = c.toNat + 32 := by
      rw [Char.ofNat, dif_pos hv]; rfl
    rw [h1]
    unfold Char.toLower
    rw [ht, if_neg (by omega)]
  · have h1 : c.toLower = c := by unfold Char.toLower; rw [if_neg h]
    rw [h1, h1]

/-- `lower` is idempotent. -/
theorem lower_idem (s : String) : lower (lower s) = lower s := by
  unfold lower
  show String.mk ((s.data.map Char.toLower).map Char.toLower) = _
  rw [List.map_map]
  have : Char.toLower ∘ Char.toLower = Char.toLower := funext char_toLower_idem
  rw [this]

/-! Claim theorems. -/

/-- Claim C1: for each of the nine supported command names (dev, build,
test, test:coverage, lint, format, install, start, preview), dispatching
that name produces exactly one child invocation whose token sequence is the
documented mapping, executed with the working directory set to the project
directory. -/
theorem known_commands_spawn_documented_invocations
    (child : SpawnCall → Int) (pd : String) :
    (main child pd ["run.py", "dev"]).spawned = [⟨["npm", "run", "dev"], some pd, true⟩] ∧
    (main child pd ["run.py", "build"]).spawned = [⟨["npm", "run", "build"], some pd, true⟩] ∧
    (main child pd ["run.py", "test"]).spawned = [⟨["npm", "run", "test"], some pd, true⟩] ∧
    (main child pd ["run.py", "test:coverage"]).spawned = [⟨["npm", "run", "test:coverage"], some pd, true⟩] ∧
    (main child pd ["run.py", "lint"]).spawned = [⟨["npm", "run", "lint"], some pd, true⟩] ∧
    (main child pd ["run.py", "format"]).spawned = [⟨["npm", "run", "format"], some pd, true⟩] ∧
    (main child pd ["run.py", "install"]).spawned = [⟨["npm", "install"], some pd, true⟩] ∧
    (main child pd ["run.py", "start"]).spawned = [⟨["npm", "run", "swa:start"], some pd, true⟩] ∧
    (main child pd ["run.py", "preview"]).spawned = [⟨["npm", "run", "preview"], some pd, true⟩] :=
  ⟨rfl, rfl, rfl, rfl, rfl, rfl, rfl, rfl, rfl⟩

/-- Claim C2: whenever a known command is dispatched, the dispatcher's exit
code is exactly the child process's exit code, whatever that code is — the
oracle `child` is universally quantified, so this covers 0, 1, 127 and every
other value. -/
theorem dispatch_exit_eq_child_exit (child : SpawnCall → Int) (pd arg : String)
    (inv : List String) (h : commands.lookup (lower arg) = some inv) :
    (main child pd ["run.py", arg]).exit = child ⟨inv, some pd, true⟩ := by
  rw [main_cons_cons, if_neg (lookup_ne_help _ _ h), h]
  rfl

/-- Witness for C2 at the concrete child exit codes 0, 1 and 127. -/
theorem dispatch_exit_eq_child_exit_witness :
    (main (fun _ => (0 : Int)) "p" ["run.py", "build"]).exit = 0 ∧
    (main (fun _ => (1 : Int)) "p" ["run.py", "build"]).exit = 1 ∧
    (main (fun _ => (127 : Int)) "p" ["run.py", "BUILD"]).exit = 127 :=
  ⟨dispatch_exit_eq_child_exit _ _ "build" ["npm", "run", "build"] rfl,
   dispatch_exit_eq_child_exit _ _ "build" ["npm", "run", "build"] rfl,
   dispatch_exit_eq_child_exit _ _ "BUILD" ["npm", "run", "build"] rfl⟩

/-- Claim C3 counterexample: on the argument `Frobnicate` the dispatcher
exits 1 and starts no child, but no printed line contains the exact
user-supplied token `Frobnicate` — the error message names the lowercased
form `frobnicate` instead (`run.py:36` lowercases before `run.py:61`
prints). -/
theorem unknown_command_echo_not_verbatim :
    (main (fun _ => 0) "p" ["run.py", "Frobnicate"]).exit = 1 ∧
    (main (fun _ => 0) "p" ["run.py", "Frobnicate"]).spawned = [] ∧
    ((main (fun _ => 0) "p" ["run.py", "Frobnicate"]).output.all
      (fun line => decide (¬ containsToken "Frobnicate" line))) = true := by
  decide

/-- Claim C3 as amended: for every argument that is neither a table key nor
a help alias after lowercasing, the dispatcher prints an error message
naming the lowercased form of the token, prints the help hint, returns exit
code 1, and starts zero child processes. -/
theorem unknown_command_reports_lowercased (child : SpawnCall → Int)
    (pd arg : String)
    (h1 : ¬(lower arg = "help" ∨ lower arg = "--help" ∨ lower arg = "-h"))
    (h2 : commands.lookup (lower arg) = none) :
    main child pd ["run.py", arg] =
      { output := ["Unknown command: " ++ lower arg,
                   "Run \x27python run.py help\x27 for available commands."]
      , spawned := [], exit := 1 } := by
  rw [main_cons_cons, if_neg h1, h2]

/-- Witness for the amended C3 at the concrete argument `frobnicate`. -/
theorem unknown_command_reports_lowercased_witness :
    main (fun _ => 0) "p" ["run.py", "frobnicate"] =
      { output := ["Unknown command: frobnicate",
                   "Run \x27python run.py help\x27 for available commands."]
      , spawned := [], exit := 1 } :=
  unknown_command_reports_lowercased _ _ _ (by decide) rfl

/-- Claim C4: every argument whose lowercased form is `help`, `--help` or
`-h` makes the dispatcher print the usage text followed by every key of the
command table (one line each), return exit code 0, and start zero child
processes. -/
theorem help_alias_lists_commands (child : SpawnCall → Int) (pd arg : String)
    (h : lower arg = "help" ∨ lower arg = "--help" ∨ lower arg = "-h") :
    main child pd ["run.py", arg] =
      { output := usage :: "Available commands:" :: commands.map (fun p => "  " ++ p.1)
      , spawned := [], exit := 0 } := by
  rw [main_cons_cons, if_pos h]

/-- Witness for C4 at the mixed-case argument `HELP`, with the key
enumeration spelled out. -/
theorem help_alias_lists_commands_witness :
    main (fun _ => 0) "p" ["run.py", "HELP"] =
      { output := [usage, "Available commands:", "  dev", "  build", "  test",
                   "  test:coverage", "  lint", "  format", "  install",
                   "  start", "  preview"]
      , spawned := [], exit := 0 } :=
  help_alias_lists_commands _ _ _ (by decide)

/-- Claim C5: with no argument beyond the program name the dispatcher prints
the usage text, returns exit code 0, and starts zero child processes. -/
theorem no_argument_prints_usage (child : SpawnCall → Int) (pd prog : String) :
    main child pd [prog] = { output := [usage], spawned := [], exit := 0 } :=
  rfl

/-- Claim C6: matching is case-insensitive — on every argument the
dispatcher behaves exactly as it does on the lowercased form of that
argument (same branch, same output, same spawned invocation, same exit). -/
theorem dispatch_case_insensitive (child : SpawnCall → Int) (pd arg : String) :
    main child pd ["run.py", arg] = main child pd ["run.py", lower arg] := by
  rw [main_cons_cons, main_cons_cons, lower_idem]

/-- Claim C7: for every known command the dispatcher's output is exactly one
line echoing the invocation, the tokens joined by single spaces. -/
theorem known_command_echo_line (child : SpawnCall → Int) (pd arg : String)
    (inv : List String) (h : commands.lookup (lower arg) = some inv) :
    (main child pd ["run.py", arg]).output =
      ["Running: " ++ String.intercalate " " inv] := by
  rw [main_cons_cons, if_neg (lookup_ne_help _ _ h), h]
  rfl

/-- Witness for C7 at the concrete command `dev`. -/
theorem known_command_echo_line_witness :
    (main (fun _ => 0) "p" ["run.py", "dev"]).output = ["Running: npm run dev"] :=
  known_command_echo_line _ _ "dev" ["npm", "run", "dev"] rfl

/-- Claim C8: the command table holds nine pairwise-distinct keys and every
value is a non-empty token sequence. It is a single literal (`commands`
above, a constant that no operation can mutate, as in the source where the
dict literal is built once in `main` and only read). -/
theorem command_table_invariant :
    commands.length = 9 ∧
    (commands.map Prod.fst).Nodup ∧
    (commands.all fun p => !p.2.isEmpty) = true := by
  decide

/-- Claim C9: everything after the first user-supplied argument — including
the program name — is ignored: two argument vectors that agree on the
second entry produce identical results (same output, same spawned
invocations with nothing appended, same exit code for the same child
oracle). -/
theorem later_arguments_ignored (child : SpawnCall → Int)
    (pd prog prog2 arg : String) (rest rest2 : List String) :
    main child pd (prog :: arg :: rest) = main child pd (prog2 :: arg :: rest2) := by
  rw [main_cons_cons, main_cons_cons]

/-- Claim C10: the dispatch logic is total and its exit code always comes
from one of the four branches: 0 (no argument or help alias), 1 (unknown
command), or the child's exit code for a looked-up invocation; the final
four conjuncts reach each branch concretely, so none is dead. -/
theorem main_total_exit_classification :
    (∀ (child : SpawnCall → Int) (pd : String) (argv : List String),
      (main child pd argv).exit = 0 ∨ (main child pd argv).exit = 1 ∨
      ∃ inv, commands.lookup (lower (argv.getD 1 "")) = some inv ∧
        (main child pd argv).exit = child ⟨inv, some pd, true⟩) ∧
    (main (fun _ => 5) "p" ["run.py"]).exit = 0 ∧
    (main (fun _ => 5) "p" ["run.py", "HELP"]).exit = 0 ∧
    (main (fun _ => 5) "p" ["run.py", "dev"]).exit = 5 ∧
    (main (fun _ => 5) "p" ["run.py", "nope"]).exit = 1 := by
  refine ⟨?_, rfl, rfl, rfl, rfl⟩
  intro child pd argv
  match argv with
  | [] => exact Or.inl rfl
  | [_] => exact Or.inl rfl
  | prog :: arg :: rest =>
    rw [main_cons_cons]
    by_cases h : lower arg = "help" ∨ lower arg = "--help" ∨ lower arg = "-h"
    · rw [if_pos h]
      exact Or.inl rfl
    · rw [if_neg h]
      cases hl : commands.lookup (lower arg) with
      | none => exact Or.inr (Or.inl rfl)
      | some inv => exact Or.inr (Or.inr ⟨inv, hl, rfl⟩)

end RunPy
